import Mathlib

/-!
Verification of the statistics-push pipeline of `tampereen-energia-ha`
(`main.py` and `import_history.py`).

The pure data transformations of the two scripts are embedded as Lean
functions over exact rationals (Python floats are modelled by `ℚ`; the
concrete inputs used below avoid binary-representation and tie-breaking
corner cases, so the rational results coincide with the float results).
The synchronous WebSocket session of `send_to_ha` is a straight line of
request/response pairs, so it is modelled by a record of the parsed
response fields the code reads, and the function returns the messages it
sent and the debug file it wrote.
-/

/-- Truthiness of an optional environment-variable string, as Python's
`not HA_URL` (`main.py` line 39): an absent variable and the empty string
are falsy. -/
def truthy : Option String → Bool
  | none => false
  | some s => if s = "" then false else true

/-- Round half to even to an integer (the tie-breaking rule of Python's
built-in `round`), over exact rationals. -/
def roundHalfEven (q : ℚ) : ℤ :=
  let f := ⌊q⌋
  let r := q - (f : ℚ)
  if r < 1/2 then f
  else if 1/2 < r then f + 1
  else if f % 2 = 0 then f else f + 1

/-- Python's `round(x, k)` (`main.py` lines 107 and 229), over exact
rationals. -/
def roundTo (k : ℕ) (q : ℚ) : ℚ :=
  (roundHalfEven (q * ((10 : ℚ) ^ k)) : ℚ) / ((10 : ℚ) ^ k)

/-- Civil date (year, month, day) from a count of days since 1970-01-01 in
the proleptic Gregorian calendar (the arithmetic performed by
`datetime.fromtimestamp`). -/
def civilFromDays (z : ℤ) : ℤ × ℕ × ℕ :=
  let zz := z + 719468
  let era := Int.fdiv zz 146097
  let doe := (zz - era * 146097).toNat
  let yoe := (doe - doe / 1460 + doe / 36524 - doe / 146096) / 365
  let doy := doe - (365 * yoe + yoe / 4 - yoe / 100)
  let mp := (5 * doy + 2) / 153
  let d := doy - (153 * mp + 2) / 5 + 1
  let m := if mp < 10 then mp + 3 else mp - 9
  ((yoe : ℤ) + era * 400 + (if m ≤ 2 then 1 else 0), m, d)

/-- Days since 1970-01-01 of a proleptic-Gregorian civil date. -/
def daysFromCivil (y : ℤ) (m d : ℕ) : ℤ :=
  let y2 := if m ≤ 2 then y - 1 else y
  let era := Int.fdiv y2 400
  let yoe := (y2 - era * 400).toNat
  let mp := if 2 < m then m - 3 else m + 9
  let doy := (153 * mp + 2) / 5 + d - 1
  let doe := 365 * yoe + yoe / 4 - yoe / 100 + doy
  era * 146097 + (doe : ℤ) - 719468

/-- Day number of the last Sunday of a 31-day month `m` of year `y`
(1970-01-01 was a Thursday, so day `z` is a Sunday iff `(z + 4) % 7 = 0`). -/
def lastSundayDay (y : ℤ) (m : ℕ) : ℤ :=
  let z := daysFromCivil y m 31
  z - Int.emod (z + 4) 7

/-- UTC offset, in seconds, of the Europe/Helsinki timezone at UTC time `t`
(seconds since the epoch): EEST (UTC+3) between the last Sundays of March
and October at 01:00 UTC (the EU daylight-saving rule applied by
`dateutil.tz.gettz("Europe/Helsinki")`), EET (UTC+2) otherwise. -/
def helsinkiOffsetSecs (t : ℤ) : ℤ :=
  let y := (civilFromDays (Int.fdiv t 86400)).1
  let dstStart := lastSundayDay y 3 * 86400 + 3600
  let dstEnd := lastSundayDay y 10 * 86400 + 3600
  if dstStart ≤ t ∧ t < dstEnd then 10800 else 7200

/-- Left-pad a numeral with zeroes to width `k`. -/
def zeroPad (k : ℕ) (n : ℕ) : String :=
  let s := toString n
  if s.length < k then String.mk (List.replicate (k - s.length) '0') ++ s else s

/-- Format a civil date as `YYYY-MM-DD` (the `strftime("%Y-%m-%d")` of
`main.py` line 86). -/
def formatCivil : ℤ × ℕ × ℕ → String
  | (y, m, d) => zeroPad 4 y.toNat ++ "-" ++ zeroPad 2 m ++ "-" ++ zeroPad 2 d

/-- `main.py` lines 83-86: convert an epoch timestamp in milliseconds to a
`YYYY-MM-DD` date string in the Europe/Helsinki timezone
(`datetime.fromtimestamp(ms / 1000.0, tz=utc).astimezone(Helsinki)
.strftime("%Y-%m-%d")`).  Statistics timestamps are hour-aligned, so the
millisecond value is an exact multiple of 1000 and integer division loses
nothing. -/
def helsinki_date_of_ms (ms : ℤ) : String :=
  let t := Int.fdiv ms 1000
  formatCivil (civilFromDays (Int.fdiv (t + helsinkiOffsetSecs t) 86400))

/-- Measurement-status flag of a portal reading (spec §3).  The field is
carried by the portal data; `main.py` never reads it. -/
inductive ReadingStatus
  | measured
  | provisional
  | unknownStatus
deriving DecidableEq, Repr

/-- One item of the portal response list `data.Dataset.Data.List`
(`main.py` line 223).  The code reads only the `Consumption` field. -/
structure PortalItem where
  consumption : ℚ
  status : ReadingStatus
deriving DecidableEq, Repr

/-- The `extracted_data` dictionary built by `fetch_and_publish`
(`main.py` lines 227-232); the scrape wall-clock `timestamp` field is not
consulted downstream and is omitted. -/
structure Extracted where
  date : String
  hourly_data : List ℚ
  total_kwh : ℚ
deriving DecidableEq, Repr

/-- One prior statistic point as read from the `statistics_during_period`
response (`main.py` lines 77-81): both fields are read with `.get` and a
default, so each is optional. `start` is an epoch timestamp in
milliseconds. -/
structure StatPoint where
  start : Option ℤ
  sum : Option ℚ
deriving DecidableEq, Repr

/-- The environment of one `send_to_ha` WebSocket session: the parsed
fields of the three responses the code reads (`main.py` lines 51, 68,
126).  `fetchSuccess` is the truthiness of `fetch_res.get("success")`;
`fetchHistory` holds the prior points the Sink stores for the queried
window, delivered under `result.<statistic id>` when the query succeeds
(missing `result` or key defaults to `[]`). -/
structure WsEnv where
  authType : Option String
  fetchSuccess : Bool
  fetchHistory : List StatPoint
  pushSuccess : Bool
deriving DecidableEq, Repr

/-- One element of the `stats` array sent by `send_to_ha` (`main.py`
lines 104-108).  The source serializes `start` as
`(base_time + timedelta(hours=i)).isoformat()` where `base_time` is local
midnight of the batch date in Europe/Helsinki; Python's aware-datetime
addition is wall-clock arithmetic, so the instant is exactly "local
midnight of `startDate` plus `startHour` hours", which is how it is
represented here. -/
structure StatEntry where
  startDate : String
  startHour : ℕ
  state : ℚ
  sum : ℚ
deriving DecidableEq, Repr

/-- Content of the debug file `ha_sync.json` (`main.py` lines 133-138);
the constant `note` string is omitted. -/
structure SyncFile where
  running_sum : ℚ
  last_pushed_date : String
deriving DecidableEq, Repr

/-- How one call of `send_to_ha` ended. -/
inductive Outcome
  | skippedNoConfig
  | authFailed
  | noOp
  | imported
  | pushRejected
deriving DecidableEq, Repr

/-- Observable effects of one `send_to_ha` call: how it ended, the `stats`
array of the `recorder/import_statistics` message if one was sent (sent in
both the accepted and the rejected case), and the `ha_sync.json` content
if the file was written. -/
structure SendResult where
  outcome : Outcome
  statsSent : Option (List StatEntry)
  fileWrite : Option SyncFile
deriving DecidableEq, Repr

/-- The environment-variable configuration of `main.py` lines 31-35 and
263. -/
structure Config where
  te_username : Option String
  te_password : Option String
  te_meteringpoint : String
  ha_url : Option String
  ha_token : Option String
  run_time : Option String
deriving DecidableEq, Repr

/-- `main.py` lines 70-89: the `(running_sum, last_pushed_date)` pair
seeded as `(0.0, "")` and overwritten from the last point of the fetched
history when the query succeeded and returned points; the date is derived
only when the point's `start` is truthy (nonzero). -/
def seed_and_last (env : WsEnv) : ℚ × String :=
  if env.fetchSuccess then
    match env.fetchHistory.getLast? with
    | some p =>
      if p.start.getD 0 ≠ 0 then
        (p.sum.getD 0, helsinki_date_of_ms (p.start.getD 0))
      else
        (p.sum.getD 0, "")
    | none => (0, "")
  else (0, "")

/-- `main.py` lines 97-108: build the `stats` array, accumulating the
running sum and rounding each emitted `sum` (but not the accumulator) to
3 decimals; `i` is the hour index added to local midnight. -/
def build_stats_aux (date : String) : ℚ → ℕ → List ℚ → List StatEntry
  | _, _, [] => []
  | acc, i, v :: rest =>
    { startDate := date, startHour := i, state := v,
      sum := roundTo 3 (acc + v) } :: build_stats_aux date (acc + v) (i + 1) rest

/-- The `stats` array of `send_to_ha` for a batch date, a seed sum and the
hourly values (`main.py` lines 97-108). -/
def build_stats (date : String) (seed : ℚ) (vals : List ℚ) : List StatEntry :=
  build_stats_aux date seed 0 vals

/-- `main.py` lines 38-142 (`send_to_ha`): skip when `HA_URL`/`HA_TOKEN`
are falsy; abort on a non-`auth_ok` auth response; fetch the prior state;
return without pushing when the candidate date equals the derived last
pushed date; otherwise build and send the `recorder/import_statistics`
message, and write `ha_sync.json` (with the unrounded accumulator) only
when the push response reports success. -/
def send_to_ha (cfg : Config) (env : WsEnv) (x : Extracted) : SendResult :=
  if !truthy cfg.ha_url || !truthy cfg.ha_token then
    { outcome := .skippedNoConfig, statsSent := none, fileWrite := none }
  else if env.authType ≠ some "auth_ok" then
    { outcome := .authFailed, statsSent := none, fileWrite := none }
  else
    let rs := seed_and_last env
    if x.date = rs.2 then
      { outcome := .noOp, statsSent := none, fileWrite := none }
    else
      let stats := build_stats x.date rs.1 x.hourly_data
      if env.pushSuccess then
        { outcome := .imported, statsSent := some stats,
          fileWrite := some { running_sum := rs.1 + x.hourly_data.sum,
                              last_pushed_date := x.date } }
      else
        { outcome := .pushRejected, statsSent := some stats, fileWrite := none }

/-- Python's `start_str[:10]` character slice. -/
def take10 (s : String) : String :=
  String.mk (s.data.take 10)

/-- `main.py` lines 221-232: from the API response, take the `List` of
readings; when the response is ok and the list nonempty, build
`extracted_data` from every item's `Consumption` (no count check and no
status check), with `date = start_str[:10]`. -/
def extract_from_response (respOk : Bool) (startStr : String)
    (dataList : List PortalItem) : Option Extracted :=
  if respOk then
    if dataList.isEmpty then none
    else
      some { date := take10 startStr,
             hourly_data := dataList.map PortalItem.consumption,
             total_kwh := roundTo 2 (dataList.map PortalItem.consumption).sum }
  else none

/-- `main.py` lines 221-258: the push-deciding tail of
`fetch_and_publish` — when extraction produced data, hand it to
`send_to_ha`; otherwise nothing is pushed. -/
def fetch_then_push (cfg : Config) (env : WsEnv) (respOk : Bool)
    (startStr : String) (dataList : List PortalItem) : Option SendResult :=
  (extract_from_response respOk startStr dataList).map (send_to_ha cfg env)

/-- One raw item accumulated by `fetch_historical_data`
(`import_history.py` lines 128-131). -/
structure RawItem where
  start : String
  state : ℚ
deriving DecidableEq, Repr

/-- One element of the `stats` array of `inject_to_home_assistant`
(`import_history.py` lines 157-161); no rounding is applied. -/
structure InjEntry where
  start : String
  state : ℚ
  sum : ℚ
deriving DecidableEq, Repr

/-- Stable insertion of an item into a list sorted ascending by `start`
(the order Python's stable `list.sort(key=...)` produces).  The key order
is code-point-lexicographic string comparison, written on the character
lists (`String.lt` is exactly the lexicographic order of `String.data`). -/
def insert_by_start (a : RawItem) : List RawItem → List RawItem
  | [] => [a]
  | b :: l => if a.start.data < b.start.data ∨ a.start = b.start then a :: b :: l
              else b :: insert_by_start a l

/-- Stable ascending sort by the `start` key
(`import_history.py` line 150: `raw_data.sort(key=lambda x: x["start"])`). -/
def sort_by_start : List RawItem → List RawItem
  | [] => []
  | a :: l => insert_by_start a (sort_by_start l)

/-- `import_history.py` lines 153-161: the accumulation loop of
`inject_to_home_assistant`, with the running sum threaded through. -/
def inject_loop : ℚ → List RawItem → List InjEntry
  | _, [] => []
  | acc, it :: rest =>
    { start := it.start, state := it.state, sum := acc + it.state }
      :: inject_loop (acc + it.state) rest

/-- The `stats` array built by `inject_to_home_assistant`
(`import_history.py` lines 150-161): sort chronologically, then accumulate
starting from the literal `running_sum = 0.0`. -/
def inject_build_stats (raw : List RawItem) : List InjEntry :=
  inject_loop 0 (sort_by_start raw)

/-- Python's `int()` on a digit string: `none` on an empty or non-digit
input.  (`int` also tolerates surrounding whitespace and an explicit sign,
which no real `RUN_TIME` value uses and which is not modelled.) -/
def digitsToNat? (cs : List Char) : Option ℕ :=
  if cs.isEmpty then none
  else cs.foldl (fun acc c => match acc with
    | none => none
    | some n => if c.isDigit then some (n * 10 + (c.toNat - 48)) else none) (some 0)

/-- `main.py` lines 263-270: clean `RUN_TIME` (strip every `"` character),
split on `:`, parse the two parts as integers and format as `HH:MM`; any
failure — wrong shape, non-numeric parts, or a value
`schedule.every().day.at` rejects (hour > 23 or minute > 59) — falls back
to `08:15`. -/
def parse_schedule_time (rt : String) : String :=
  let cs := rt.data.filter (fun c => c ≠ '"')
  match cs.splitOn ':' with
  | [h, m] =>
    match digitsToNat? h, digitsToNat? m with
    | some hn, some mn =>
      if hn < 24 ∧ mn < 60 then zeroPad 2 hn ++ ":" ++ zeroPad 2 mn else "08:15"
    | _, _ => "08:15"
  | _ => "08:15"

/-- What the `__main__` block does before blocking in its scheduler loop
(`main.py` lines 260-274): run one cycle, install the daily trigger, and
enter `while True`.  The block contains no configuration check and no
process-exit path, so the result records `exitCode := none` and
`entersLoop := true` for every configuration — the straight-line structure
of the source. -/
structure StartupResult where
  exitCode : Option ℕ
  scheduleTime : String
  entersLoop : Bool
deriving DecidableEq, Repr

/-- The startup decision of `main.py` lines 260-274. -/
def main_startup (cfg : Config) : StartupResult :=
  { exitCode := none,
    scheduleTime := parse_schedule_time (cfg.run_time.getD "08:15"),
    entersLoop := true }

/-- Modelled from the spec: the Retry/Backoff Controller of §4.4 is not
implemented in the files under `src/` (the `__main__` block of `main.py`
installs only a fixed daily trigger and persists no retry deadline), so
its state machine is taken from the spec's words: states `Idle` and
`RetryPending {retry_at}`; the state holds at most one pending deadline by
construction. -/
inductive RetryState
  | idle
  | pending (retry_at : ℕ)
deriving DecidableEq, Repr

/-- Modelled from the spec (§4.4): a failed cycle sets
`retry_at = now + fixed_delay` from `Idle`; a new failure while already
pending does not reset `retry_at`. -/
def retry_on_failure (now delay : ℕ) : RetryState → RetryState
  | .idle => .pending (now + delay)
  | .pending t => .pending t

/-- Modelled from the spec (§4.4): a successful import or an authoritative
NoOp clears the pending deadline. -/
def retry_on_success : RetryState → RetryState := fun _ => .idle


/-- Positional characterization of `build_stats_aux`: the `k`-th emitted
entry carries hour index `i + k`, the `k`-th input value, and the rounded
accumulation of the seed with the first `k + 1` values. -/
lemma build_stats_aux_get (date : String) :
    ∀ (vals : List ℚ) (acc : ℚ) (i k : ℕ),
      (build_stats_aux date acc i vals)[k]? =
        (vals[k]?).map (fun v =>
          { startDate := date, startHour := i + k, state := v,
            sum := roundTo 3 (acc + (vals.take (k + 1)).sum) }) := by
  intro vals
  induction vals with
  | nil => intro acc i k; simp [build_stats_aux]
  | cons v rest ih =>
    intro acc i k
    cases k with
    | zero => simp [build_stats_aux]
    | succ k =>
      simp only [build_stats_aux, List.getElem?_cons_succ, ih (acc + v) (i + 1) k,
        List.take_succ_cons, List.sum_cons]
      cases h : rest[k]? with
      | none => simp
      | some w =>
        simp only [Option.map_some']
        rw [show i + 1 + k = i + (k + 1) by omega, add_assoc]

/-- `build_stats` emits one entry per input value. -/
lemma build_stats_aux_len (date : String) :
    ∀ (vals : List ℚ) (acc : ℚ) (i : ℕ),
      (build_stats_aux date acc i vals).length = vals.length := by
  intro vals
  induction vals with
  | nil => intro acc i; simp [build_stats_aux]
  | cons v rest ih => intro acc i; simp [build_stats_aux, ih]

/-- Positional characterization of `inject_loop`: the `k`-th entry carries
the `k`-th item's fields and the exact (unrounded) accumulation of the
first `k + 1` states. -/
lemma inject_loop_get :
    ∀ (l : List RawItem) (acc : ℚ) (k : ℕ),
      (inject_loop acc l)[k]? =
        (l[k]?).map (fun it =>
          { start := it.start, state := it.state,
            sum := acc + ((l.take (k + 1)).map RawItem.state).sum }) := by
  intro l
  induction l with
  | nil => intro acc k; simp [inject_loop]
  | cons a rest ih =>
    intro acc k
    cases k with
    | zero => simp [inject_loop]
    | succ k =>
      simp only [inject_loop, List.getElem?_cons_succ, ih (acc + a.state) k,
        List.take_succ_cons, List.map_cons, List.sum_cons]
      cases h : rest[k]? with
      | none => simp
      | some w =>
        simp only [Option.map_some']
        rw [add_assoc]

/-- On a falsy `success` flag the seed pair keeps its initial value:
seed 0, empty last-pushed date (`main.py` lines 70-71, 88-89). -/
lemma seed_on_fail (env : WsEnv) (h : env.fetchSuccess = false) :
    seed_and_last env = (0, "") := by
  simp [seed_and_last, h]

/-- On a successful query with history, the seed is the last point's
recorded cumulative sum (`main.py` line 78), whether or not the point
carries a usable `start`. -/
lemma seed_fst_of_last (env : WsEnv) (p : StatPoint)
    (h : env.fetchSuccess = true) (hp : env.fetchHistory.getLast? = some p) :
    (seed_and_last env).1 = p.sum.getD 0 := by
  simp only [seed_and_last, h, if_true, hp]
  split <;> rfl

/-- Whenever configuration and authentication pass and the candidate date
differs from the derived last-pushed date, `send_to_ha` sends the import
message built from the derived seed, and the outcome follows the push
response. -/
lemma send_pushes (cfg : Config) (env : WsEnv) (x : Extracted)
    (h1 : truthy cfg.ha_url = true) (h2 : truthy cfg.ha_token = true)
    (h3 : env.authType = some "auth_ok") (hd : x.date ≠ (seed_and_last env).2) :
    (send_to_ha cfg env x).statsSent =
      some (build_stats x.date (seed_and_last env).1 x.hourly_data) ∧
    (send_to_ha cfg env x).outcome =
      (if env.pushSuccess then Outcome.imported else Outcome.pushRejected) := by
  cases hps : env.pushSuccess <;>
    simp [send_to_ha, h1, h2, h3, hd, hps]

/-- Any stats array `send_to_ha` sends is `build_stats` of the candidate
date, the derived seed and the hourly values. -/
lemma statsSent_shape (cfg : Config) (env : WsEnv) (x : Extracted)
    (stats : List StatEntry)
    (hst : (send_to_ha cfg env x).statsSent = some stats) :
    stats = build_stats x.date (seed_and_last env).1 x.hourly_data := by
  simp only [send_to_ha] at hst
  split at hst
  · simp at hst
  · split at hst
    · simp at hst
    · split at hst
      · simp at hst
      · split at hst
        · exact (Option.some.inj hst).symm
        · exact (Option.some.inj hst).symm

/-- C1 counterexample: an execution in which the
`statistics_during_period` response has `success` false, yet `send_to_ha`
sends the `recorder/import_statistics` message anyway, seeded from 0. -/
theorem failed_fetch_still_imports_cx :
    send_to_ha ⟨some "u", some "p", "", some "ws", some "tok", some "08:15"⟩
        ⟨some "auth_ok", false, [], true⟩ ⟨"2024-03-03", [2], 2⟩
      = { outcome := .imported,
          statsSent := some [{ startDate := "2024-03-03", startHour := 0,
                               state := 2, sum := 2 }],
          fileWrite := some { running_sum := 2, last_pushed_date := "2024-03-03" } } ∧
    (send_to_ha ⟨some "u", some "p", "", some "ws", some "tok", some "08:15"⟩
        ⟨some "auth_ok", false, [], true⟩ ⟨"2024-03-03", [2], 2⟩).statsSent ≠ none := by
  refine ⟨by with_unfolding_all rfl, by with_unfolding_all decide⟩

/-- C1 amended: a failed Sink query does not make `send_to_ha` fail; it
proceeds with a seed sum of 0 and an empty last-pushed date, and still
sends the import message for any candidate date other than `""`. -/
theorem push_proceeds_on_failed_fetch (cfg : Config) (env : WsEnv) (x : Extracted)
    (h1 : truthy cfg.ha_url = true) (h2 : truthy cfg.ha_token = true)
    (h3 : env.authType = some "auth_ok") (h4 : env.fetchSuccess = false)
    (h5 : x.date ≠ "") :
    (send_to_ha cfg env x).statsSent = some (build_stats x.date 0 x.hourly_data) := by
  have hs : seed_and_last env = (0, "") := seed_on_fail env h4
  have hd : x.date ≠ (seed_and_last env).2 := by rw [hs]; exact h5
  have h := (send_pushes cfg env x h1 h2 h3 hd).1
  rw [hs] at h
  exact h

/-- C1 amended, witnessed at a concrete failed-fetch execution. -/
theorem push_proceeds_on_failed_fetch_witness :
    (send_to_ha ⟨some "u", some "p", "", some "ws", some "tok", some "08:15"⟩
        ⟨some "auth_ok", false, [], true⟩ ⟨"2024-03-03", [2], 2⟩).statsSent
      = some (build_stats "2024-03-03" 0 [2]) :=
  push_proceeds_on_failed_fetch _ _ _ (by decide) (by decide) (by decide)
    (by decide) (by decide)

/-- C2 counterexample: the Sink stores a last point with cumulative sum
100, the query for it fails, and the import is sent seeded from 0 (first
entry sum 2 = 0 + 2), not extended from the recorded 100. -/
theorem seed_zero_despite_recorded_sum_cx :
    (send_to_ha ⟨some "u", some "p", "", some "ws", some "tok", some "08:15"⟩
        ⟨some "auth_ok", false, [⟨some 1709326800000, some 100⟩], true⟩
        ⟨"2024-03-03", [2], 2⟩).statsSent
      = some [{ startDate := "2024-03-03", startHour := 0, state := 2, sum := 2 }] ∧
    ((⟨some "auth_ok", false, [⟨some 1709326800000, some 100⟩], true⟩ :
        WsEnv).fetchHistory.getLast? = some ⟨some 1709326800000, some 100⟩) ∧
    (2 : ℚ) ≠ roundTo 3 (100 + 2) := by
  refine ⟨by with_unfolding_all rfl, rfl, by with_unfolding_all decide⟩

/-- C2 amended: every import `send_to_ha` sends is seeded from
`seed_and_last`, which equals the Sink's recorded last sum only when the
query succeeded and returned points, and is 0 whenever the query failed —
regardless of what the Sink actually stores.  (`inject_to_home_assistant`
never queries at all: see `inject_build_stats`, whose seed is the literal
0.) -/
theorem seed_source_characterization (cfg : Config) (env : WsEnv) (x : Extracted)
    (stats : List StatEntry)
    (hst : (send_to_ha cfg env x).statsSent = some stats) :
    stats = build_stats x.date (seed_and_last env).1 x.hourly_data ∧
    (env.fetchSuccess = false → (seed_and_last env).1 = 0) ∧
    (∀ p : StatPoint, env.fetchSuccess = true →
      env.fetchHistory.getLast? = some p → (seed_and_last env).1 = p.sum.getD 0) := by
  refine ⟨statsSent_shape cfg env x stats hst, ?_, ?_⟩
  · intro h; rw [seed_on_fail env h]
  · intro p h hp; exact seed_fst_of_last env p h hp

/-- C2 amended, witnessed at a concrete failed-fetch execution. -/
theorem seed_source_characterization_witness :
    (seed_and_last ⟨some "auth_ok", false, [], true⟩).1 = 0 :=
  (seed_source_characterization
      ⟨some "u", some "p", "", some "ws", some "tok", some "08:15"⟩
      ⟨some "auth_ok", false, [], true⟩ ⟨"2024-03-03", [2], 2⟩
      (build_stats "2024-03-03" 0 [2]) (by with_unfolding_all rfl)).2.1 rfl

/-- C3 counterexample: with seed 0 and the single hourly value 1/2500
(0.0004 kWh), the emitted entry has `sum = 0` (rounded to 3 decimals) but
`seed_sum + state = 1/2500`, so `entries[0].sum = seed_sum +
entries[0].state` fails as an exact equation. -/
theorem rounding_breaks_exact_sum_cx :
    build_stats "2024-03-01" 0 [1/2500]
      = [{ startDate := "2024-03-01", startHour := 0, state := 1/2500, sum := 0 }] ∧
    (0 : ℚ) ≠ 0 + 1/2500 := by
  refine ⟨by with_unfolding_all rfl, by with_unfolding_all decide⟩

/-- C3 amended: in `send_to_ha` batches each entry's `sum` is the exact
accumulation rounded to 3 decimals, so the recurrence holds only up to
that rounding; in `inject_to_home_assistant` batches (no rounding) the
equations hold exactly, with seed 0. -/
theorem sum_recurrence_characterization :
    (∀ (date : String) (seed : ℚ) (vals : List ℚ) (i : ℕ),
      ((build_stats date seed vals)[i]?).map StatEntry.sum =
        (vals[i]?).map (fun _ => roundTo 3 (seed + (vals.take (i + 1)).sum))) ∧
    (∀ (raw : List RawItem) (i : ℕ) (p q : InjEntry),
      (inject_build_stats raw)[i]? = some p →
      (inject_build_stats raw)[i + 1]? = some q →
      q.sum = p.sum + q.state) ∧
    (∀ (raw : List RawItem) (p : InjEntry),
      (inject_build_stats raw)[0]? = some p → p.sum = 0 + p.state) := by
  refine ⟨?_, ?_, ?_⟩
  · intro date seed vals i
    rw [build_stats, build_stats_aux_get date vals seed 0 i]
    cases h : vals[i]? <;> simp
  · intro raw i p q hp hq
    rw [inject_build_stats, inject_loop_get] at hp hq
    cases h1 : (sort_by_start raw)[i]? with
    | none => rw [h1] at hp; simp at hp
    | some a =>
      rw [h1] at hp
      cases h2 : (sort_by_start raw)[i + 1]? with
      | none => rw [h2] at hq; simp at hq
      | some b =>
        rw [h2] at hq
        simp only [Option.map_some', Option.some.injEq] at hp hq
        have htake : (sort_by_start raw).take (i + 1 + 1) =
            (sort_by_start raw).take (i + 1) ++ [b] := by
          rw [List.take_succ, h2]; rfl
        rw [← hp, ← hq]
        simp [htake, add_assoc]
  · intro raw p hp
    rw [inject_build_stats, inject_loop_get] at hp
    cases h1 : (sort_by_start raw)[0]? with
    | none => rw [h1] at hp; simp at hp
    | some a =>
      rw [h1] at hp
      simp only [Option.map_some', Option.some.injEq] at hp
      have htake : (sort_by_start raw).take 1 = [a] := by
        rw [List.take_succ, h1]; rfl
      rw [← hp]
      simp [htake]

/-- C3 amended, witnessed on a concrete two-day historical batch. -/
theorem sum_recurrence_characterization_witness : (5 : ℚ) = 2 + 3 :=
  sum_recurrence_characterization.2.1 [⟨"2024-01-02", 3⟩, ⟨"2024-01-01", 2⟩] 0
    ⟨"2024-01-01", 2, 2⟩ ⟨"2024-01-02", 3, 5⟩
    (by with_unfolding_all rfl) (by with_unfolding_all rfl)

/-- C4: when the candidate batch's day equals the date derived from the
Sink's last returned point, `send_to_ha` returns NoOp: no import message
is sent and no file is written. -/
theorem send_noop_on_duplicate_day (cfg : Config) (env : WsEnv) (x : Extracted)
    (p : StatPoint)
    (h1 : truthy cfg.ha_url = true) (h2 : truthy cfg.ha_token = true)
    (h3 : env.authType = some "auth_ok") (h4 : env.fetchSuccess = true)
    (hp : env.fetchHistory.getLast? = some p) (hms : p.start.getD 0 ≠ 0)
    (hd : x.date = helsinki_date_of_ms (p.start.getD 0)) :
    send_to_ha cfg env x =
      { outcome := .noOp, statsSent := none, fileWrite := none } := by
  have hs : seed_and_last env = (p.sum.getD 0, helsinki_date_of_ms (p.start.getD 0)) := by
    simp [seed_and_last, h4, hp, hms]
  simp [send_to_ha, h1, h2, h3, hs, hd]

/-- C4, witnessed: the Sink's last point lies on 2024-03-01 (Helsinki)
and the candidate batch is for 2024-03-01, so the call is a NoOp. -/
theorem send_noop_on_duplicate_day_witness :
    send_to_ha ⟨some "u", some "p", "", some "ws", some "tok", some "08:15"⟩
        ⟨some "auth_ok", true, [⟨some 1709326800000, some 120⟩], true⟩
        ⟨"2024-03-01", [1], 1⟩
      = { outcome := .noOp, statsSent := none, fileWrite := none } :=
  send_noop_on_duplicate_day _ _ _ ⟨some 1709326800000, some 120⟩
    (by decide) (by decide) (by decide) (by decide) rfl (by decide) (by decide)

/-- C5 counterexample: the Sink's last imported day is 2024-03-05
(Helsinki) but the candidate day 2024-03-01 — strictly earlier — is not
treated as already imported: the import message is sent and accepted. -/
theorem earlier_day_still_imported_cx :
    ("2024-03-01" : String) < "2024-03-05" ∧
    helsinki_date_of_ms 1709632800000 = "2024-03-05" ∧
    send_to_ha ⟨some "u", some "p", "", some "ws", some "tok", some "08:15"⟩
        ⟨some "auth_ok", true, [⟨some 1709632800000, some 500⟩], true⟩
        ⟨"2024-03-01", [2], 2⟩
      = { outcome := .imported,
          statsSent := some [{ startDate := "2024-03-01", startHour := 0,
                               state := 2, sum := 502 }],
          fileWrite := some { running_sum := 502, last_pushed_date := "2024-03-01" } } := by
  refine ⟨?_, by decide, by with_unfolding_all rfl⟩
  simp
  decide

/-- C5 amended: the only dedup guard is exact string equality with the
derived last-pushed date; any other candidate date — equally one strictly
earlier than the last imported day — is pushed. -/
theorem push_proceeds_on_any_new_day (cfg : Config) (env : WsEnv) (x : Extracted)
    (h1 : truthy cfg.ha_url = true) (h2 : truthy cfg.ha_token = true)
    (h3 : env.authType = some "auth_ok") (hd : x.date ≠ (seed_and_last env).2) :
    (send_to_ha cfg env x).statsSent =
      some (build_stats x.date (seed_and_last env).1 x.hourly_data) :=
  (send_pushes cfg env x h1 h2 h3 hd).1

/-- C5 amended, witnessed with a candidate day strictly earlier than the
derived last imported day. -/
theorem push_proceeds_on_any_new_day_witness :
    (send_to_ha ⟨some "u", some "p", "", some "ws", some "tok", some "08:15"⟩
        ⟨some "auth_ok", true, [⟨some 1709632800000, some 500⟩], true⟩
        ⟨"2024-03-01", [2], 2⟩).statsSent
      = some (build_stats "2024-03-01"
          (seed_and_last ⟨some "auth_ok", true, [⟨some 1709632800000, some 500⟩],
            true⟩).1 [2]) :=
  push_proceeds_on_any_new_day _ _ _ (by decide) (by decide) (by decide)
    (by with_unfolding_all decide)

/-- C6 counterexample: a day carrying a single reading — fewer than 24
hours, and that one not `Measured` — is extracted and imported in full;
no completeness gate exists in the code. -/
theorem ungated_day_imported_cx :
    fetch_then_push ⟨some "u", some "p", "", some "ws", some "tok", some "08:15"⟩
        ⟨some "auth_ok", true, [], true⟩ true "2024-03-01T00:00:00.000Z"
        [⟨5, ReadingStatus.provisional⟩]
      = some { outcome := .imported,
               statsSent := some [{ startDate := "2024-03-01", startHour := 0,
                                    state := 5, sum := 5 }],
               fileWrite := some { running_sum := 5, last_pushed_date := "2024-03-01" } } ∧
    ([(⟨5, ReadingStatus.provisional⟩ : PortalItem)].length ≠ 24) ∧
    (⟨5, ReadingStatus.provisional⟩ : PortalItem).status ≠ ReadingStatus.measured := by
  refine ⟨by with_unfolding_all rfl, by decide, by decide⟩

/-- C6 amended: the only gate is nonemptiness of the returned list for the
single requested day; `fetch_and_publish` imports every value of any
nonempty list, whatever the readings' count or measurement status. -/
theorem any_nonempty_day_pushed (cfg : Config) (env : WsEnv) (s : String)
    (dataList : List PortalItem)
    (h1 : truthy cfg.ha_url = true) (h2 : truthy cfg.ha_token = true)
    (h3 : env.authType = some "auth_ok") (hne : dataList ≠ [])
    (hd : take10 s ≠ (seed_and_last env).2) :
    (fetch_then_push cfg env true s dataList).map SendResult.statsSent =
      some (some (build_stats (take10 s) (seed_and_last env).1
        (dataList.map PortalItem.consumption))) := by
  cases dataList with
  | nil => exact absurd rfl hne
  | cons a l =>
    have hx : extract_from_response true s (a :: l) =
        some { date := take10 s,
               hourly_data := (a :: l).map PortalItem.consumption,
               total_kwh := roundTo 2 ((a :: l).map PortalItem.consumption).sum } := by
      simp [extract_from_response]
    have h := (send_pushes cfg env
      { date := take10 s, hourly_data := (a :: l).map PortalItem.consumption,
        total_kwh := roundTo 2 ((a :: l).map PortalItem.consumption).sum }
      h1 h2 h3 hd).1
    simp only [fetch_then_push, hx, Option.map_some']
    exact congrArg some h

/-- C6 amended, witnessed on a one-reading, non-`Measured` day. -/
theorem any_nonempty_day_pushed_witness :
    (fetch_then_push ⟨some "u", some "p", "", some "ws", some "tok", some "08:15"⟩
        ⟨some "auth_ok", true, [], true⟩ true "2024-03-01T00:00:00.000Z"
        [⟨5, ReadingStatus.provisional⟩]).map SendResult.statsSent
      = some (some (build_stats (take10 "2024-03-01T00:00:00.000Z")
          (seed_and_last ⟨some "auth_ok", true, [], true⟩).1
          ([(⟨5, ReadingStatus.provisional⟩ : PortalItem)].map PortalItem.consumption))) :=
  any_nonempty_day_pushed _ _ _ _ (by decide) (by decide) (by decide)
    (by decide) (by decide)

/-- C7 (modelled from the spec; the Retry Controller is absent from
`src/`): a second consecutive failure leaves the pending state — and so
the persisted `retry_at` — exactly as the first failure set it; only the
first failure from `Idle` sets the deadline. -/
theorem retry_single_flight (now1 delay1 now2 delay2 : ℕ) (s : RetryState) :
    retry_on_failure now2 delay2 (retry_on_failure now1 delay1 s) =
      retry_on_failure now1 delay1 s ∧
    retry_on_failure now2 delay2 (retry_on_failure now1 delay1 RetryState.idle) =
      RetryState.pending (now1 + delay1) := by
  constructor
  · cases s <;> rfl
  · rfl

/-- C8 counterexample: with every mandatory variable missing, startup
still installs the daily trigger and enters the scheduler loop — there is
no exit path, let alone exit code 1; `send_to_ha` merely skips. -/
theorem no_exit_on_missing_config_cx :
    main_startup ⟨none, none, "", none, none, none⟩
      = { exitCode := none, scheduleTime := "08:15", entersLoop := true } ∧
    (main_startup ⟨none, none, "", none, none, none⟩).exitCode ≠ some 1 ∧
    send_to_ha ⟨none, none, "", none, none, none⟩ ⟨none, false, [], false⟩ ⟨"", [], 0⟩
      = { outcome := .skippedNoConfig, statsSent := none, fileWrite := none } := by
  refine ⟨by with_unfolding_all rfl, by decide, by with_unfolding_all rfl⟩

/-- C8 amended: the process never exits at startup — for every
configuration the scheduler loop is entered — and missing `HA_URL` or
`HA_TOKEN` only makes `send_to_ha` return without any message or write. -/
theorem startup_never_exits (cfg : Config) (env : WsEnv) (x : Extracted) :
    (main_startup cfg).exitCode = none ∧ (main_startup cfg).entersLoop = true ∧
    ((truthy cfg.ha_url = false ∨ truthy cfg.ha_token = false) →
      send_to_ha cfg env x =
        { outcome := .skippedNoConfig, statsSent := none, fileWrite := none }) := by
  refine ⟨rfl, rfl, ?_⟩
  intro h
  rcases h with h | h <;> simp [send_to_ha, h]

/-- C8 amended, witnessed at the all-missing configuration. -/
theorem startup_never_exits_witness :
    (main_startup ⟨none, none, "", none, none, none⟩).exitCode = none ∧
    send_to_ha ⟨none, none, "", none, none, none⟩ ⟨none, false, [], false⟩ ⟨"", [], 0⟩
      = { outcome := .skippedNoConfig, statsSent := none, fileWrite := none } :=
  ⟨(startup_never_exits ⟨none, none, "", none, none, none⟩ ⟨none, false, [], false⟩
      ⟨"", [], 0⟩).1,
   (startup_never_exits ⟨none, none, "", none, none, none⟩ ⟨none, false, [], false⟩
      ⟨"", [], 0⟩).2.2 (Or.inl rfl)⟩

/-- C9: `ha_sync.json` is written only when the import was sent and the
Sink acknowledged it — every execution ending in a config skip, an auth
failure, a duplicate-day NoOp or a rejected import leaves the file
untouched. -/
theorem file_write_only_on_success (cfg : Config) (env : WsEnv) (x : Extracted) :
    (send_to_ha cfg env x).fileWrite ≠ none →
    (send_to_ha cfg env x).outcome = Outcome.imported ∧ env.pushSuccess = true := by
  simp only [send_to_ha]
  split
  · intro h; simp at h
  · split
    · intro h; simp at h
    · split
      · intro h; simp at h
      · split
        · next hps => intro _; exact ⟨rfl, hps⟩
        · intro h; simp at h

/-- C9, witnessed at an execution with a successful push. -/
theorem file_write_only_on_success_witness :
    (send_to_ha ⟨some "u", some "p", "", some "ws", some "tok", some "08:15"⟩
        ⟨some "auth_ok", true, [], true⟩ ⟨"2024-03-02", [1], 1⟩).outcome
      = Outcome.imported ∧ (true : Bool) = true :=
  file_write_only_on_success _ _ _ (by with_unfolding_all decide)

/-- C10: the batch `send_to_ha` builds has exactly one entry per input
value, in input order and for any input length; the `i`-th entry's start
is local midnight of the batch date plus `i` hours (synthesized from the
position, not from the readings), its state is the `i`-th value, and its
sum the rounded running accumulation. -/
theorem stats_positional (date : String) (seed : ℚ) (vals : List ℚ) :
    (build_stats date seed vals).length = vals.length ∧
    ∀ i : ℕ, (build_stats date seed vals)[i]? =
      (vals[i]?).map (fun v =>
        { startDate := date, startHour := i, state := v,
          sum := roundTo 3 (seed + (vals.take (i + 1)).sum) }) := by
  constructor
  · exact build_stats_aux_len date vals seed 0
  · intro i
    rw [build_stats, build_stats_aux_get date vals seed 0 i]
    cases h : vals[i]? <;> simp
